import Mathlib

/-!
Verification of the p4-backend user-profile service (`src/index.js`).

The service owns one entity (User, with soft deletion) persisted in a
document store, and exposes signup, login, three sub-sequence update
operations, soft delete and a listing of active users.  Each Express
route handler is embedded as a pure function from the request and the
current store contents to the new store contents and a response.
The document store is modelled as a list of `User` records; `findOne`
and `findByIdAndUpdate` are modelled on that list.  The bcrypt password
hasher is an external collaborator and is modelled as an abstract
`Hasher` structure.
-/

/-- One element of the `profile` sub-sequence of `userSchema`
(src/index.js lines 31-38): photo URL, about-me text, required
telephone number, address. -/
structure ProfileEntry where
  photo_url : Option String
  about_me : Option String
  telNo : String
  address : Option String
deriving DecidableEq

/-- One element of the `education` sub-sequence (lines 39-44). -/
structure EducationEntry where
  school_name : Option String
  course : Option String
deriving DecidableEq

/-- One element of the `work_experience` sub-sequence (lines 45-52). -/
structure WorkExperienceEntry where
  company : Option String
  position : Option String
  year : Option String
  job_description : Option String
deriving DecidableEq

/-- One element of the `skills` sub-sequence (lines 53-58). -/
structure SkillEntry where
  list_skills : Option String
  skills_level : Option Int
deriving DecidableEq

/-- One element of the `portfolio` sub-sequence (lines 59-65). -/
structure PortfolioEntry where
  image_url : Option String
  project_title : Option String
  project_url : Option String
deriving DecidableEq

/-- A stored User document, per `userSchema` (src/index.js lines 25-66).
`id` is the opaque store-assigned `_id`; `deleted` is the soft-deletion
flag defaulting to `false`. -/
structure User where
  id : Nat
  first_name : String
  last_name : String
  username : String
  userPassword : String
  deleted : Bool
  profile : List ProfileEntry
  education : List EducationEntry
  work_experience : List WorkExperienceEntry
  skills : List SkillEntry
  portfolio : List PortfolioEntry
deriving DecidableEq

/-- The document store contents: one collection of User documents. -/
def Store := List User

/-- JavaScript falsiness of an optional string request field:
`!x` is true exactly when the field is absent or the empty string. -/
def falsy : Option String → Bool
  | none => true
  | some s => s.isEmpty

/-- `UserProfile.findOne({ username })` (src/index.js lines 81, 189):
first record whose `username` matches, with no filter on `deleted`. -/
def findOneByUsername (db : List User) (username : String) : Option User :=
  db.find? (fun r => r.username == username)

/-- `UserProfile.findByIdAndUpdate(id, update, { new: true })`
(src/index.js lines 112, 136, 160, 224): if some record has the given
`_id`, apply the update to it and return the post-update document
(`new: true`); otherwise return `none` and leave the store unchanged. -/
def findByIdAndUpdate (db : List User) (id : Nat) (f : User → User) :
    List User × Option User :=
  match db.find? (fun r => r.id == id) with
  | none => (db, none)
  | some r => (db.map (fun s => if s.id == id then f s else s), some (f r))

/-- The external bcrypt password hasher (src/index.js line 8):
`genSalt cost entropy` models `bcrypt.genSalt(cost)` drawing fresh
randomness `entropy`, `hash password salt` models
`bcrypt.hash(password, salt)`, and `verify password stored` models
`bcrypt.compare(password, stored)`. -/
structure Hasher where
  genSalt : Nat → Nat → String
  hash : String → String → String
  verify : String → String → Bool

/-- The contract of a bcrypt-style hasher: hashing never returns the
plaintext, and verification accepts a password against its own hash. -/
def Hasher.Sound (H : Hasher) : Prop :=
  (∀ pw salt, H.hash pw salt ≠ pw) ∧
  (∀ pw salt, H.verify pw (H.hash pw salt) = true)

/-- The body of a POST /signup request.  The handler destructures only
the four named fields (src/index.js line 73); `rest` stands for any
other content of the JSON body, which the handler never reads. -/
structure SignupRequest where
  first_name : Option String
  last_name : Option String
  username : Option String
  userPassword : Option String
  rest : List (String × String)
deriving DecidableEq

/-- Outcome of POST /signup: 400 missing-fields, 400 duplicate
username, or 201 with the inserted document. -/
inductive SignupResult where
  | validationError
  | duplicateUsernameError
  | created (u : User)
deriving DecidableEq

/-- The `newUser` document built by the /signup handler
(src/index.js lines 90-95): the four request fields, with
`userPassword` replaced by the hash of lines 87-88
(`bcrypt.genSalt(10)` with fresh randomness `entropy`, then
`bcrypt.hash`), the schema default `deleted = false`, empty
sub-sequences, and the store-assigned `_id` `freshId`. -/
def newUser (H : Hasher) (entropy freshId : Nat) (req : SignupRequest) : User :=
  { id := freshId
    first_name := req.first_name.getD ""
    last_name := req.last_name.getD ""
    username := req.username.getD ""
    userPassword := H.hash (req.userPassword.getD "") (H.genSalt 10 entropy)
    deleted := false
    profile := []
    education := []
    work_experience := []
    skills := []
    portfolio := [] }

/-- The /signup handler (src/index.js lines 71-103).  `entropy` is the
randomness consumed by `bcrypt.genSalt(10)` for this request;
`freshId` is the `_id` the store assigns to the inserted document. -/
def signup (H : Hasher) (entropy : Nat) (freshId : Nat) (db : List User)
    (req : SignupRequest) : List User × SignupResult :=
  if falsy req.first_name || falsy req.last_name || falsy req.username ||
      falsy req.userPassword then
    (db, .validationError)
  else
    match findOneByUsername db (req.username.getD "") with
    | some _ => (db, .duplicateUsernameError)
    | none =>
      (db ++ [newUser H entropy freshId req], .created (newUser H entropy freshId req))

/-- Outcome of POST /login: 400 missing fields, 404 not-found-or-deleted,
400 invalid credentials, or 200 with the stored record. -/
inductive LoginResult where
  | missingCredentials
  | notFound
  | invalidCredentials
  | success (u : User)
deriving DecidableEq

/-- The /login handler (src/index.js lines 179-205): requires both
fields, looks the username up without filtering on `deleted`, answers
404 identically when no record matches or the match is soft-deleted,
then compares the password against the stored hash. -/
def login (H : Hasher) (db : List User)
    (username userPassword : Option String) : LoginResult :=
  if falsy username || falsy userPassword then
    .missingCredentials
  else
    match findOneByUsername db (username.getD "") with
    | none => .notFound
    | some user =>
      if user.deleted then .notFound
      else if H.verify (userPassword.getD "") user.userPassword then
        .success user
      else .invalidCredentials

/-- Outcome of the three update routes: 404 or 200 with the
post-update document. -/
inductive UpdateResult where
  | notFound
  | updated (u : User)
deriving DecidableEq

/-- Modelled from the spec: the Document Store collaborator's `$set`
semantics for a sub-sequence field whose value is absent from the
request body (`req.body.profile` being `undefined`).  The store's
exact treatment of an undefined `$set` value lives in the Mongoose
driver, outside this repository; the spec states that omission empties
the field, so an absent value is interpreted as the empty sequence. -/
def setValue {α : Type} (v : Option (List α)) : List α :=
  v.getD []

/-- The /updateProfile/:id handler (src/index.js lines 106-127):
replaces the whole `profile` field of the record with the given `_id`
by the request's `profile` value. -/
def updateProfile (db : List User) (id : Nat)
    (profile : Option (List ProfileEntry)) : List User × UpdateResult :=
  match findByIdAndUpdate db id (fun u => { u with profile := setValue profile }) with
  | (db2, some u) => (db2, .updated u)
  | (db2, none) => (db2, .notFound)

/-- The /education/:id handler (src/index.js lines 130-151):
replaces the whole `education` field. -/
def updateEducation (db : List User) (id : Nat)
    (education : Option (List EducationEntry)) : List User × UpdateResult :=
  match findByIdAndUpdate db id (fun u => { u with education := setValue education }) with
  | (db2, some u) => (db2, .updated u)
  | (db2, none) => (db2, .notFound)

/-- The /portfolio/:id handler (src/index.js lines 154-175):
replaces the whole `portfolio` field. -/
def updatePortfolio (db : List User) (id : Nat)
    (portfolio : Option (List PortfolioEntry)) : List User × UpdateResult :=
  match findByIdAndUpdate db id (fun u => { u with portfolio := setValue portfolio }) with
  | (db2, some u) => (db2, .updated u)
  | (db2, none) => (db2, .notFound)

/-- Outcome of DELETE /delete/:id: 404 or 200 with the updated record. -/
inductive DeleteResult where
  | notFound
  | softDeleted (u : User)
deriving DecidableEq

/-- The /delete/:id handler (src/index.js lines 219-234): marks the
record with the given `_id` as deleted, with no filter on its current
`deleted` state. -/
def softDelete (db : List User) (id : Nat) : List User × DeleteResult :=
  match findByIdAndUpdate db id (fun u => { u with deleted := true }) with
  | (db2, some u) => (db2, .softDeleted u)
  | (db2, none) => (db2, .notFound)

/-- The GET / handler (src/index.js lines 208-216):
`UserProfile.find({ deleted: false })`. -/
def listActiveUsers (db : List User) : List User :=
  db.filter (fun u => u.deleted == false)

/-! ### A concrete hasher and sample records, used to instantiate the
theorems at concrete inputs. -/

/-- `startsList l l2` decides whether `l` is an initial segment of
`l2`. -/
def startsList : List Char → List Char → Bool
  | [], _ => true
  | _ :: _, [] => false
  | a :: as, b :: bs => a == b && startsList as bs

/-- A concrete stand-in for bcrypt: the "hash" is the password followed
by a separator and the salt, and verification checks that the stored
value starts with the password. -/
def toyHasher : Hasher where
  genSalt cost entropy := "s" ++ toString cost ++ "e" ++ toString entropy
  hash pw salt := pw ++ "$" ++ salt
  verify pw stored := startsList pw.data stored.data

theorem startsList_append (l rest : List Char) : startsList l (l ++ rest) = true := by
  induction l with
  | nil => rfl
  | cons a as ih => simp [startsList, ih]

theorem toyHasher_hash_ne (pw salt : String) : toyHasher.hash pw salt ≠ pw := by
  intro h
  have h2 : (pw ++ "$") ++ salt = pw := h
  have hlen := congrArg String.length h2
  rw [String.length_append, String.length_append] at hlen
  have h1 : "$".length = 1 := rfl
  rw [h1] at hlen
  omega

theorem toyHasher_verify_hash (pw salt : String) :
    toyHasher.verify pw (toyHasher.hash pw salt) = true := by
  show startsList pw.data ((pw ++ "$") ++ salt).data = true
  rw [String.data_append, String.data_append, List.append_assoc]
  exact startsList_append pw.data _

theorem toyHasher_sound : toyHasher.Sound :=
  ⟨toyHasher_hash_ne, toyHasher_verify_hash⟩

/-- A sample active stored record whose password is "p". -/
def sampleUser : User :=
  { id := 1
    first_name := "A"
    last_name := "B"
    username := "u"
    userPassword := toyHasher.hash "p" "s"
    deleted := false
    profile := []
    education := []
    work_experience := []
    skills := []
    portfolio := [] }

/-- A sample soft-deleted stored record whose password is "p". -/
def sampleDeletedUser : User :=
  { sampleUser with id := 2, username := "v", deleted := true }

/-- A sample valid signup request body. -/
def sampleRequest : SignupRequest :=
  { first_name := some "A"
    last_name := some "B"
    username := some "u"
    userPassword := some "p"
    rest := [] }

/-- A sample profile sub-document. -/
def sampleProfileEntry : ProfileEntry :=
  { photo_url := none, about_me := none, telNo := "t", address := none }

/-! ### Helper lemmas about the store operations. -/

/-- On a store with no duplicate `_id`s, looking a member record up by
its own `_id` finds exactly that record. -/
theorem find_id_of_mem (db : List User) (r : User) (hr : r ∈ db)
    (hnd : (db.map User.id).Nodup) :
    db.find? (fun s => s.id == r.id) = some r := by
  induction db with
  | nil => cases hr
  | cons a as ih =>
    rcases List.mem_cons.mp hr with h | h
    · subst h
      simp [List.find?_cons]
    · have hnd' := List.nodup_cons.mp hnd
      have hne : (a.id == r.id) = false := by
        rw [beq_eq_false_iff_ne]
        intro he
        exact hnd'.1 (he ▸ List.mem_map_of_mem User.id h)
      simp [List.find?_cons, hne, ih h hnd'.2]

/-- Updating the matching record with an `_id`-preserving function
preserves which record the store finds for that `_id`. -/
theorem find_map_pres (db : List User) (id : Nat) (f : User → User)
    (hf : ∀ u, (f u).id = u.id) :
    (db.map (fun s => if s.id == id then f s else s)).find? (fun s => s.id == id)
      = (db.find? (fun s => s.id == id)).map f := by
  induction db with
  | nil => rfl
  | cons a as ih =>
    by_cases hb : a.id = id
    · have hp : (f a).id = id := by rw [hf a]; exact hb
      simp [List.find?_cons, hb, hp]
    · simp [List.find?_cons, hb, -List.find?_map] at ih ⊢
      exact ih

/-- Updating the matching record twice with an idempotent,
`_id`-preserving function is the same as updating it once. -/
theorem map_update_idem (db : List User) (id : Nat) (f : User → User)
    (hf : ∀ u, (f u).id = u.id) (hidem : ∀ u, f (f u) = f u) :
    ((db.map (fun s => if s.id == id then f s else s)).map
        (fun s => if s.id == id then f s else s))
      = db.map (fun s => if s.id == id then f s else s) := by
  induction db with
  | nil => rfl
  | cons a as ih =>
    by_cases hb : a.id = id
    · have hp : (f a).id = id := by rw [hf a]; exact hb
      simp only [List.map_cons]
      rw [ih]
      simp [hb, hp, hidem a]
    · simp only [List.map_cons]
      rw [ih]
      simp [hb]

/-! ### Claims -/

/-- Claim C5: ListActiveUsers returns exactly the records whose deleted
flag is false: for every store state, no record with `deleted = true`
ever appears in the returned sequence, and every record with
`deleted = false` does. -/
theorem listActiveUsers_exactly_undeleted (db : List User) (u : User) :
    u ∈ listActiveUsers db ↔ u ∈ db ∧ u.deleted = false := by
  simp [listActiveUsers]

/-- Claim C7: Signup with any of the four required fields absent or
empty fails with ValidationError and the store is unchanged: no record
is created on this failure path. -/
theorem signup_validationError_on_missing_field (H : Hasher)
    (entropy freshId : Nat) (db : List User) (req : SignupRequest)
    (h : falsy req.first_name = true ∨ falsy req.last_name = true ∨
      falsy req.username = true ∨ falsy req.userPassword = true) :
    signup H entropy freshId db req = (db, .validationError) := by
  unfold signup
  rcases h with h | h | h | h <;> simp [h]

theorem signup_validationError_on_missing_field_witness :
    signup toyHasher 0 1 []
        { first_name := none, last_name := some "B", username := some "u",
          userPassword := some "p", rest := [] }
      = ([], .validationError) :=
  signup_validationError_on_missing_field toyHasher 0 1 [] _ (Or.inl rfl)

/-- Claim C3: Signup fails with DuplicateUsernameError whenever any
existing record, including one with `deleted = true`, has the same
username; the duplicate check does not filter by the deleted flag. -/
theorem signup_duplicate_check_ignores_deleted (H : Hasher)
    (entropy freshId : Nat) (db : List User) (req : SignupRequest) (r : User)
    (h1 : falsy req.first_name = false) (h2 : falsy req.last_name = false)
    (h3 : falsy req.username = false) (h4 : falsy req.userPassword = false)
    (hr : r ∈ db) (hname : r.username = req.username.getD "") :
    signup H entropy freshId db req = (db, .duplicateUsernameError) := by
  have hsome : (db.find? (fun s => s.username == req.username.getD "")).isSome := by
    rw [List.find?_isSome]
    exact ⟨r, hr, by simp [hname]⟩
  obtain ⟨u, hu⟩ := Option.isSome_iff_exists.mp hsome
  simp [signup, findOneByUsername, h1, h2, h3, h4, hu]

theorem signup_duplicate_check_ignores_deleted_witness :
    signup toyHasher 0 3 [sampleDeletedUser]
        { first_name := some "A", last_name := some "B", username := some "v",
          userPassword := some "p", rest := [] }
      = ([sampleDeletedUser], .duplicateUsernameError) :=
  signup_duplicate_check_ignores_deleted toyHasher 0 3 [sampleDeletedUser] _
    sampleDeletedUser rfl rfl rfl rfl (by simp) rfl

/-- Claim C1: For every valid signup, the stored userPassword is a
salted bcrypt-style hash (a per-record random salt generated with cost
factor 10), never the plaintext: the stored value differs from the
supplied password and verifying the password against the stored hash
succeeds. -/
theorem signup_stores_salted_hash (H : Hasher) (hS : H.Sound)
    (entropy freshId : Nat) (db : List User) (req : SignupRequest)
    (h1 : falsy req.first_name = false) (h2 : falsy req.last_name = false)
    (h3 : falsy req.username = false) (h4 : falsy req.userPassword = false)
    (h5 : findOneByUsername db (req.username.getD "") = none) :
    signup H entropy freshId db req
        = (db ++ [newUser H entropy freshId req],
           .created (newUser H entropy freshId req)) ∧
      (newUser H entropy freshId req).userPassword
        = H.hash (req.userPassword.getD "") (H.genSalt 10 entropy) ∧
      (newUser H entropy freshId req).userPassword ≠ req.userPassword.getD "" ∧
      H.verify (req.userPassword.getD "")
        (newUser H entropy freshId req).userPassword = true := by
  refine ⟨?_, rfl, ?_, ?_⟩
  · simp [signup, h1, h2, h3, h4, h5]
  · exact hS.1 _ _
  · exact hS.2 _ _

theorem signup_stores_salted_hash_witness :
    signup toyHasher 0 1 [] sampleRequest
        = ([newUser toyHasher 0 1 sampleRequest],
           .created (newUser toyHasher 0 1 sampleRequest)) ∧
      (newUser toyHasher 0 1 sampleRequest).userPassword
        = toyHasher.hash "p" (toyHasher.genSalt 10 0) ∧
      (newUser toyHasher 0 1 sampleRequest).userPassword ≠ "p" ∧
      toyHasher.verify "p" (newUser toyHasher 0 1 sampleRequest).userPassword
        = true :=
  signup_stores_salted_hash toyHasher toyHasher_sound 0 1 [] sampleRequest
    rfl rfl rfl rfl rfl

/-- Claim C8: Every successful signup persists a new record with
`deleted = false` and all five sub-sequences empty, regardless of what
else the request body contains, and returns the full stored record to
the caller. -/
theorem signup_persists_defaults (H : Hasher) (entropy freshId : Nat)
    (db : List User) (req : SignupRequest) (rest2 : List (String × String))
    (h1 : falsy req.first_name = false) (h2 : falsy req.last_name = false)
    (h3 : falsy req.username = false) (h4 : falsy req.userPassword = false)
    (h5 : findOneByUsername db (req.username.getD "") = none) :
    signup H entropy freshId db req
        = (db ++ [newUser H entropy freshId req],
           .created (newUser H entropy freshId req)) ∧
      (newUser H entropy freshId req).deleted = false ∧
      (newUser H entropy freshId req).profile = [] ∧
      (newUser H entropy freshId req).education = [] ∧
      (newUser H entropy freshId req).work_experience = [] ∧
      (newUser H entropy freshId req).skills = [] ∧
      (newUser H entropy freshId req).portfolio = [] ∧
      signup H entropy freshId db { req with rest := rest2 }
        = (db ++ [newUser H entropy freshId req],
           .created (newUser H entropy freshId req)) := by
  refine ⟨?_, rfl, rfl, rfl, rfl, rfl, rfl, ?_⟩
  · simp [signup, h1, h2, h3, h4, h5]
  · simp [signup, newUser, h1, h2, h3, h4, h5]

theorem signup_persists_defaults_witness :
    signup toyHasher 0 1 [] sampleRequest
        = ([newUser toyHasher 0 1 sampleRequest],
           .created (newUser toyHasher 0 1 sampleRequest)) ∧
      (newUser toyHasher 0 1 sampleRequest).deleted = false ∧
      (newUser toyHasher 0 1 sampleRequest).profile = [] ∧
      (newUser toyHasher 0 1 sampleRequest).education = [] ∧
      (newUser toyHasher 0 1 sampleRequest).work_experience = [] ∧
      (newUser toyHasher 0 1 sampleRequest).skills = [] ∧
      (newUser toyHasher 0 1 sampleRequest).portfolio = [] ∧
      signup toyHasher 0 1 [] { sampleRequest with rest := [("extra", "x")] }
        = ([newUser toyHasher 0 1 sampleRequest],
           .created (newUser toyHasher 0 1 sampleRequest)) :=
  signup_persists_defaults toyHasher 0 1 [] sampleRequest [("extra", "x")]
    rfl rfl rfl rfl rfl

/-- Claim C2: For every login request with both fields present: if no
record matches the username, or the matching record has
`deleted = true`, the operation fails with NotFoundError, and the two
cases are reported identically to the caller; if the record exists
undeleted but the hash comparison fails, it fails with
InvalidCredentialsError; otherwise it succeeds and returns the stored
record. -/
theorem login_error_taxonomy (H : Hasher)
    (db1 db2 db3 db4 : List User)
    (un1 un2 un3 un4 pw1 pw2 pw3 pw4 : Option String)
    (u2 u3 u4 : User)
    (ha1 : falsy un1 = false) (hb1 : falsy pw1 = false)
    (ha2 : falsy un2 = false) (hb2 : falsy pw2 = false)
    (ha3 : falsy un3 = false) (hb3 : falsy pw3 = false)
    (ha4 : falsy un4 = false) (hb4 : falsy pw4 = false)
    (hf1 : findOneByUsername db1 (un1.getD "") = none)
    (hf2 : findOneByUsername db2 (un2.getD "") = some u2)
    (hd2 : u2.deleted = true)
    (hf3 : findOneByUsername db3 (un3.getD "") = some u3)
    (hd3 : u3.deleted = false)
    (hv3 : H.verify (pw3.getD "") u3.userPassword = false)
    (hf4 : findOneByUsername db4 (un4.getD "") = some u4)
    (hd4 : u4.deleted = false)
    (hv4 : H.verify (pw4.getD "") u4.userPassword = true) :
    login H db1 un1 pw1 = .notFound ∧
    login H db2 un2 pw2 = .notFound ∧
    login H db2 un2 pw2 = login H db1 un1 pw1 ∧
    login H db3 un3 pw3 = .invalidCredentials ∧
    login H db4 un4 pw4 = .success u4 := by
  have g1 : login H db1 un1 pw1 = .notFound := by
    simp [login, ha1, hb1, hf1]
  have g2 : login H db2 un2 pw2 = .notFound := by
    simp [login, ha2, hb2, hf2, hd2]
  have g3 : login H db3 un3 pw3 = .invalidCredentials := by
    simp [login, ha3, hb3, hf3, hd3, hv3]
  have g4 : login H db4 un4 pw4 = .success u4 := by
    simp [login, ha4, hb4, hf4, hd4, hv4]
  exact ⟨g1, g2, g2.trans g1.symm, g3, g4⟩

theorem login_error_taxonomy_witness :
    login toyHasher [sampleUser, sampleDeletedUser] (some "u") (some "p")
      = .success sampleUser :=
  (login_error_taxonomy toyHasher
    [sampleUser] [sampleUser, sampleDeletedUser]
    [sampleUser, sampleDeletedUser] [sampleUser, sampleDeletedUser]
    (some "x") (some "v") (some "u") (some "u")
    (some "p") (some "p") (some "w") (some "p")
    sampleDeletedUser sampleUser sampleUser
    rfl rfl rfl rfl rfl rfl rfl rfl
    (by decide) (by decide) (by decide)
    (by decide) (by decide) (by decide)
    (by decide) (by decide) (by decide)).2.2.2.2

/-- Claim C10: For a record with `deleted = true`, Login returns the
identical NotFoundError response for every supplied password, correct
or not: the deleted check precedes the hash comparison, so the password
value has no influence on the response for a soft-deleted account
(two-run noninterference in the password argument). -/
theorem login_deleted_password_noninterference (H : Hasher)
    (db : List User) (un pw1 pw2 : Option String) (u : User)
    (hun : falsy un = false) (hp1 : falsy pw1 = false)
    (hp2 : falsy pw2 = false)
    (hf : findOneByUsername db (un.getD "") = some u)
    (hd : u.deleted = true) :
    login H db un pw1 = .notFound ∧
    login H db un pw1 = login H db un pw2 := by
  have g1 : login H db un pw1 = .notFound := by
    simp [login, hun, hp1, hf, hd]
  have g2 : login H db un pw2 = .notFound := by
    simp [login, hun, hp2, hf, hd]
  exact ⟨g1, g1.trans g2.symm⟩

theorem login_deleted_password_noninterference_witness :
    login toyHasher [sampleUser, sampleDeletedUser] (some "v") (some "p")
        = .notFound ∧
      login toyHasher [sampleUser, sampleDeletedUser] (some "v") (some "p")
        = login toyHasher [sampleUser, sampleDeletedUser] (some "v") (some "w") :=
  login_deleted_password_noninterference toyHasher
    [sampleUser, sampleDeletedUser] (some "v") (some "p") (some "w")
    sampleDeletedUser rfl rfl rfl (by decide) (by decide)

/-- Claim C4: For every record r and every update operation
(UpdateProfile, UpdateEducation, UpdatePortfolio) on r's id with
supplied sequence xs, the resulting record equals r with the named
sub-sequence replaced by xs and every other field unchanged; when the
named field is omitted from the request, the stored field becomes
empty. -/
theorem update_replaces_named_subsequence (db : List User) (r : User)
    (xsP : List ProfileEntry) (xsE : List EducationEntry)
    (xsPo : List PortfolioEntry)
    (hr : r ∈ db) (hnd : (db.map User.id).Nodup) :
    updateProfile db r.id (some xsP)
        = (db.map (fun s => if s.id == r.id then { s with profile := xsP } else s),
           .updated { r with profile := xsP }) ∧
    updateEducation db r.id (some xsE)
        = (db.map (fun s => if s.id == r.id then { s with education := xsE } else s),
           .updated { r with education := xsE }) ∧
    updatePortfolio db r.id (some xsPo)
        = (db.map (fun s => if s.id == r.id then { s with portfolio := xsPo } else s),
           .updated { r with portfolio := xsPo }) ∧
    updateProfile db r.id none
        = (db.map (fun s =>
            if s.id == r.id then { s with profile := ([] : List ProfileEntry) } else s),
           .updated { r with profile := [] }) ∧
    updateEducation db r.id none
        = (db.map (fun s =>
            if s.id == r.id then { s with education := ([] : List EducationEntry) } else s),
           .updated { r with education := [] }) ∧
    updatePortfolio db r.id none
        = (db.map (fun s =>
            if s.id == r.id then { s with portfolio := ([] : List PortfolioEntry) } else s),
           .updated { r with portfolio := [] }) := by
  have hfind := find_id_of_mem db r hr hnd
  refine ⟨?_, ?_, ?_, ?_, ?_, ?_⟩ <;>
    simp [updateProfile, updateEducation, updatePortfolio, findByIdAndUpdate,
      setValue, hfind]

theorem update_replaces_named_subsequence_witness :
    updateProfile [sampleUser, sampleDeletedUser] sampleUser.id
        (some [sampleProfileEntry])
      = ([{ sampleUser with profile := [sampleProfileEntry] }, sampleDeletedUser],
         .updated { sampleUser with profile := [sampleProfileEntry] }) :=
  (update_replaces_named_subsequence [sampleUser, sampleDeletedUser] sampleUser
    [sampleProfileEntry] [] [] (by decide) (by decide)).1

/-- Claim C6: SoftDelete on an id that resolves sets `deleted = true` on
that record and succeeds regardless of the record's current deleted
state; applying SoftDelete twice to the same id yields the same store
state and a success response both times (idempotence). -/
theorem softDelete_succeeds_and_idempotent (db : List User) (id : Nat)
    (r : User) (hfind : db.find? (fun s => s.id == id) = some r) :
    softDelete db id
        = (db.map (fun s => if s.id == id then { s with deleted := true } else s),
           .softDeleted { r with deleted := true }) ∧
      ({ r with deleted := true } : User).deleted = true ∧
      softDelete
          (db.map (fun s => if s.id == id then { s with deleted := true } else s)) id
        = (db.map (fun s => if s.id == id then { s with deleted := true } else s),
           .softDeleted { r with deleted := true }) := by
  refine ⟨?_, rfl, ?_⟩
  · simp [softDelete, findByIdAndUpdate, hfind]
  · have h := find_map_pres db id (fun u => { u with deleted := true }) (fun u => rfl)
    rw [hfind] at h
    have hidem := map_update_idem db id (fun u => { u with deleted := true })
      (fun u => rfl) (fun u => rfl)
    simp [-List.find?_map, -List.map_map] at h hidem
    simp [softDelete, findByIdAndUpdate, h, hidem, -List.find?_map, -List.map_map]

theorem softDelete_succeeds_and_idempotent_witness :
    softDelete [sampleUser, sampleDeletedUser] 2
        = ([sampleUser, sampleDeletedUser].map
            (fun s => if s.id == 2 then { s with deleted := true } else s),
           .softDeleted { sampleDeletedUser with deleted := true }) ∧
      ({ sampleDeletedUser with deleted := true } : User).deleted = true ∧
      softDelete
          ([sampleUser, sampleDeletedUser].map
            (fun s => if s.id == 2 then { s with deleted := true } else s)) 2
        = ([sampleUser, sampleDeletedUser].map
            (fun s => if s.id == 2 then { s with deleted := true } else s),
           .softDeleted { sampleDeletedUser with deleted := true }) :=
  softDelete_succeeds_and_idempotent [sampleUser, sampleDeletedUser] 2
    sampleDeletedUser (by decide)

/-- Claim C9: For every update operation (UpdateProfile,
UpdateEducation, UpdatePortfolio), if the supplied id does not resolve
to any record the operation fails with NotFoundError, and a record's
`deleted = true` state never blocks the update: every id that resolves
is updated whether the record is soft-deleted or not. -/
theorem update_notFound_only_when_unresolved (db1 db2 : List User)
    (id1 id2 : Nat) (r : User)
    (p : Option (List ProfileEntry)) (e : Option (List EducationEntry))
    (po : Option (List PortfolioEntry))
    (h1 : ∀ s ∈ db1, s.id ≠ id1)
    (h2 : db2.find? (fun s => s.id == id2) = some r) :
    updateProfile db1 id1 p = (db1, .notFound) ∧
    updateEducation db1 id1 e = (db1, .notFound) ∧
    updatePortfolio db1 id1 po = (db1, .notFound) ∧
    (updateProfile db2 id2 p).2 = .updated { r with profile := setValue p } ∧
    (updateEducation db2 id2 e).2 = .updated { r with education := setValue e } ∧
    (updatePortfolio db2 id2 po).2 = .updated { r with portfolio := setValue po } := by
  have hnone : db1.find? (fun s => s.id == id1) = none := by
    rw [List.find?_eq_none]
    intro x hx
    simp [h1 x hx]
  refine ⟨?_, ?_, ?_, ?_, ?_, ?_⟩ <;>
    simp [updateProfile, updateEducation, updatePortfolio, findByIdAndUpdate,
      hnone, h2]

theorem update_notFound_only_when_unresolved_witness :
    (updateProfile [sampleDeletedUser] 2 (some [sampleProfileEntry])).2
      = .updated { sampleDeletedUser with profile := [sampleProfileEntry] } :=
  (update_notFound_only_when_unresolved [sampleUser] [sampleDeletedUser] 99 2
    sampleDeletedUser (some [sampleProfileEntry]) none none
    (by decide) (by decide)).2.2.2.1
